import Mathlib

/-!
Shallow embedding of the dual-backend GPU abstraction of wgpu-webgl-wasm.

Sources embedded here:
- src/src/ts/triangle.ts        : the backend selector and frame driver (main)
- src/src/ts/webgpu-backend.ts  : the native WebGPU backend
- src/unnamed/part_002          : the WebGL bridge backend (webgl-backend.ts)
- src/src/ts/types.ts           : the shared data model

Host-API objects (GPUDevice, the wasm object table, DOM elements) are opaque
to the TypeScript layer; the embedding represents what the layer observably
builds: descriptor records handed to the host, numeric handles, and traces of
the calls forwarded to the underlying encoder, plus the log lines emitted.
Machine numbers in the TypeScript are JS numbers used only as non-negative
integers and bitmasks here, so they are embedded as Nat.
-/

namespace Wgpu

/-- Buffer usage bitmask constants of the bridge path, from the BufferUsage
const object in src/unnamed/part_002 lines 29-40. -/
def BufferUsage.MAP_READ : Nat := 0x0001

/-- See BufferUsage.MAP_READ. -/
def BufferUsage.MAP_WRITE : Nat := 0x0002

/-- See BufferUsage.MAP_READ. -/
def BufferUsage.COPY_SRC : Nat := 0x0004

/-- See BufferUsage.MAP_READ. -/
def BufferUsage.COPY_DST : Nat := 0x0008

/-- See BufferUsage.MAP_READ. -/
def BufferUsage.INDEX : Nat := 0x0010

/-- See BufferUsage.MAP_READ. -/
def BufferUsage.VERTEX : Nat := 0x0020

/-- See BufferUsage.MAP_READ. -/
def BufferUsage.UNIFORM : Nat := 0x0040

/-- See BufferUsage.MAP_READ. -/
def BufferUsage.STORAGE : Nat := 0x0080

/-- See BufferUsage.MAP_READ. -/
def BufferUsage.INDIRECT : Nat := 0x0100

/-- See BufferUsage.MAP_READ. -/
def BufferUsage.QUERY_RESOLVE : Nat := 0x0200

/-- The COPY_DST flag of the host WebGPU API (GPUBufferUsage.COPY_DST), used
by webgpu-backend.ts createBufferWithData. Its numeric value 0x0008 is fixed
by the W3C WebGPU specification. -/
def GPUBufferUsage.COPY_DST : Nat := 0x0008

/-- The vertex-format enum of the wasm bridge module (WVertexFormat in the
generated bindings); the TypeScript layer references exactly these six
variants. -/
inductive WVertexFormat where
  | Float32
  | Float32x2
  | Float32x3
  | Float32x4
  | Uint32
  | Sint32
deriving DecidableEq, Repr

/-- The primitive-topology enum of the wasm bridge module (WPrimitiveTopology
in the generated bindings). The TypeScript layer references only TriangleList;
the other variants exist in the bindings so the embedding keeps the type
non-degenerate. -/
inductive WPrimitiveTopology where
  | PointList
  | LineList
  | LineStrip
  | TriangleList
  | TriangleStrip
deriving DecidableEq, Repr

/-- mapVertexFormat from src/unnamed/part_002 lines 12-24: translate a
canonical GPUVertexFormat string into the bridge enum. The switch falls
through to a console.warn plus the Float32x4 default; the second component
collects the warning lines emitted. -/
def mapVertexFormat (format : String) : WVertexFormat × List String :=
  if format = "float32" then (.Float32, [])
  else if format = "float32x2" then (.Float32x2, [])
  else if format = "float32x3" then (.Float32x3, [])
  else if format = "float32x4" then (.Float32x4, [])
  else if format = "uint32" then (.Uint32, [])
  else if format = "sint32" then (.Sint32, [])
  else (.Float32x4,
    ["Unsupported vertex format: " ++ format ++ ", defaulting to float32x4"])

/-- VertexAttribute from types.ts: the canonical caller-side attribute
descriptor, with the format still a canonical string. -/
structure VertexAttribute where
  shaderLocation : Nat
  offset : Nat
  format : String
deriving DecidableEq, Repr

/-- VertexBufferLayout from types.ts. -/
structure VertexBufferLayout where
  arrayStride : Nat
  attributes : List VertexAttribute
deriving DecidableEq, Repr

/-- Host-environment snapshot consumed by WebGPUBackend.init and by main in
triangle.ts: whether navigator.gpu exists, whether requestAdapter yields an
adapter, whether canvas.getContext succeeds, and the format reported by
getPreferredCanvasFormat. -/
structure HostEnv where
  gpuPresent : Bool
  adapterPresent : Bool
  contextOk : Bool
  preferredFormat : String
deriving DecidableEq, Repr

/-- WebGPUContext from types.ts as observable to the layer: device, queue,
context and canvas are opaque host handles with no structure the verified
code reads back; the format string is the one datum the layer stores and
reuses. -/
structure WebGPUContext where
  format : String
deriving DecidableEq, Repr

/-- GPUShaderModule as built by webgpu-backend.ts createShaderModule: the
descriptor passed to device.createShaderModule holds only the code field. -/
structure GPUShaderModule where
  code : String
deriving DecidableEq, Repr

/-- The render-pipeline descriptor the native backend hands to
device.createRenderPipeline (webgpu-backend.ts lines 54-103). -/
structure GPURenderPipelineDesc where
  moduleCode : String
  vertexEntryPoint : String
  fragmentEntryPoint : String
  vertexBuffers : Option VertexBufferLayout
  colorTargetFormats : List String
  topology : String
deriving DecidableEq, Repr

/-- The buffer descriptor plus creation-time contents produced by the native
backend buffer calls. -/
structure GPUBufferModel where
  size : Nat
  usage : Nat
  data : List Nat
deriving DecidableEq, Repr

/-- FrameContext from types.ts: the pair of host handles returned by
beginFrame; handles are numeric. -/
structure FrameContext where
  commandEncoder : Nat
  renderPass : Nat
deriving DecidableEq, Repr

/-- Calls the backend layer forwards to the underlying encoder and queue
objects of the host API. -/
inductive GpuCall where
  | passSetPipeline (pass : Nat)
  | passSetVertexBuffer (pass slot offset : Nat)
  | passDraw (pass vertexCount instanceCount firstVertex firstInstance : Nat)
  | passEnd (pass : Nat)
  | encoderFinish (encoder : Nat)
  | queueSubmit
deriving DecidableEq, Repr

/-- WebGPUBackend.init from webgpu-backend.ts lines 9-46: three guard checks
each throwing the literal message, then the context record is built with the
preferred format queried from the host. -/
def WebGPUBackend.init (env : HostEnv) : Except String WebGPUContext :=
  if env.gpuPresent = false then .error "WebGPU not supported"
  else if env.adapterPresent = false then .error "No WebGPU adapter found"
  else if env.contextOk = false then .error "Failed to get WebGPU context"
  else .ok { format := env.preferredFormat }

/-- WebGPUBackend.createShaderModule (webgpu-backend.ts line 48): the entry
names arrive as parameters spelled _vertexEntry and _fragmentEntry and are
not used; only the code reaches the host descriptor. -/
def WebGPUBackend.createShaderModule (_ctx : WebGPUContext) (code : String)
    (_vertexEntry _fragmentEntry : String) : GPUShaderModule :=
  { code := code }

/-- WebGPUBackend.createRenderPipeline (webgpu-backend.ts lines 54-70): the
descriptor literal with hardcoded entry points, the context format as the
single color target, and triangle-list topology. -/
def WebGPUBackend.createRenderPipeline (ctx : WebGPUContext)
    (sm : GPUShaderModule) (_topology : String) : GPURenderPipelineDesc :=
  { moduleCode := sm.code
    vertexEntryPoint := "vs_main"
    fragmentEntryPoint := "fs_main"
    vertexBuffers := none
    colorTargetFormats := [ctx.format]
    topology := "triangle-list" }

/-- WebGPUBackend.createRenderPipelineWithLayout (webgpu-backend.ts lines
72-103): same descriptor with the vertex buffer layout copied field by
field. -/
def WebGPUBackend.createRenderPipelineWithLayout (ctx : WebGPUContext)
    (sm : GPUShaderModule) (_topology : String)
    (vertexBufferLayout : VertexBufferLayout) : GPURenderPipelineDesc :=
  { moduleCode := sm.code
    vertexEntryPoint := "vs_main"
    fragmentEntryPoint := "fs_main"
    vertexBuffers := some
      { arrayStride := vertexBufferLayout.arrayStride
        attributes := vertexBufferLayout.attributes.map fun attr =>
          { shaderLocation := attr.shaderLocation
            offset := attr.offset
            format := attr.format } }
    colorTargetFormats := [ctx.format]
    topology := "triangle-list" }

/-- WebGPUBackend.createBuffer (webgpu-backend.ts lines 105-109). -/
def WebGPUBackend.createBuffer (_ctx : WebGPUContext) (size usage : Nat) :
    GPUBufferModel :=
  { size := size, usage := usage, data := List.replicate size 0 }

/-- WebGPUBackend.createBufferWithData (webgpu-backend.ts lines 111-127):
size is the byte length of the data, usage gets GPUBufferUsage.COPY_DST
OR-ed in, and the bytes are copied into the mapped range. -/
def WebGPUBackend.createBufferWithData (_ctx : WebGPUContext)
    (data : List Nat) (usage : Nat) : GPUBufferModel :=
  { size := data.length
    usage := usage ||| GPUBufferUsage.COPY_DST
    data := data }

/-- WebGPUBackend.setPipeline (webgpu-backend.ts line 155): an unconditional
forward to renderPass.setPipeline. Frame operations return an Except so that
a rejection by the layer would be representable; the body never produces
one. -/
def WebGPUBackend.setPipeline (frame : FrameContext)
    (_pipeline : GPURenderPipelineDesc) : Except String (List GpuCall) :=
  .ok [.passSetPipeline frame.renderPass]

/-- WebGPUBackend.draw (webgpu-backend.ts lines 163-165): an unconditional
forward to renderPass.draw; the layer keeps no frame state and performs no
check. -/
def WebGPUBackend.draw (frame : FrameContext)
    (vertexCount instanceCount firstVertex firstInstance : Nat) :
    Except String (List GpuCall) :=
  .ok [.passDraw frame.renderPass vertexCount instanceCount firstVertex
    firstInstance]

/-- WebGPUBackend.endFrame (webgpu-backend.ts lines 167-171): forwards end,
finish and submit unconditionally; no check that the frame is still open. -/
def WebGPUBackend.endFrame (_ctx : WebGPUContext) (frame : FrameContext) :
    Except String (List GpuCall) :=
  .ok [.passEnd frame.renderPass, .encoderFinish frame.commandEncoder,
    .queueSubmit]

/-- WebGLContext from types.ts as observable to the layer: device, queue and
wasm are opaque handles into the bridge module; nothing the verified claims
touch reads structure out of them. -/
structure WebGLContext where
  deviceHandle : Nat
deriving DecidableEq, Repr

/-- WShaderModule as produced by the bridge path: webgl-backend.ts
createShaderModule forwards code and both entry names into the wasm module
(src/unnamed/part_002 lines 66-70). -/
structure WShaderModule where
  code : String
  vertexEntry : String
  fragmentEntry : String
deriving DecidableEq, Repr

/-- One attribute as registered on a WVertexBufferLayout via addAttribute. -/
structure WVertexAttribute where
  shaderLocation : Nat
  offset : Nat
  format : WVertexFormat
deriving DecidableEq, Repr

/-- WVertexBufferLayout of the bridge module after the addAttribute loop in
src/unnamed/part_002 lines 92-99. -/
structure WVertexBufferLayout where
  arrayStride : Nat
  attributes : List WVertexAttribute
deriving DecidableEq, Repr

/-- The render pipeline the bridge module is asked to build
(src/unnamed/part_002 lines 72-107). -/
structure WRenderPipeline where
  shaderModule : WShaderModule
  topology : WPrimitiveTopology
  layout : Option WVertexBufferLayout
deriving DecidableEq, Repr

/-- A buffer in the bridge module object table: its byte contents and usage
bitmask. -/
structure WBuffer where
  data : List Nat
  usage : Nat
deriving DecidableEq, Repr

/-- Modelled from the spec: the createBufferWithData entry point inside the
wasm bridge module (Rust source of the wgpu_webgl_wasm crate, not present
under src/; only the TypeScript caller is). Section 4.1 of the spec states
that createBufferWithData implicitly ORs in a copy-destination usage bit so
the creation-time upload is always legal, and section 5 requires the byte
copy across the memory boundary to happen synchronously inside the call. -/
def wasmCreateBufferWithData (bytes : List Nat) (usage : Nat) : WBuffer :=
  { data := bytes, usage := usage ||| BufferUsage.COPY_DST }

/-- WebGLBackend.createShaderModule (src/unnamed/part_002 lines 66-70):
forwards code and both entry names to the wasm module. -/
def WebGLBackend.createShaderModule (_ctx : WebGLContext) (code : String)
    (vertexEntry fragmentEntry : String) : WShaderModule :=
  { code := code, vertexEntry := vertexEntry, fragmentEntry := fragmentEntry }

/-- WebGLBackend.createRenderPipeline (src/unnamed/part_002 lines 72-80):
ignores the topology string and always passes WPrimitiveTopology.TriangleList
to the wasm module, with no vertex layout. -/
def WebGLBackend.createRenderPipeline (_ctx : WebGLContext)
    (sm : WShaderModule) (_topology : String) : WRenderPipeline :=
  { shaderModule := sm, topology := .TriangleList, layout := none }

/-- WebGLBackend.createRenderPipelineWithLayout (src/unnamed/part_002 lines
82-107): translates each attribute format through mapVertexFormat (second
component: the warning lines those translations emit), then passes
TriangleList regardless of the topology string. -/
def WebGLBackend.createRenderPipelineWithLayout (_ctx : WebGLContext)
    (sm : WShaderModule) (_topology : String)
    (vertexBufferLayout : VertexBufferLayout) :
    WRenderPipeline × List String :=
  let layout : WVertexBufferLayout :=
    { arrayStride := vertexBufferLayout.arrayStride
      attributes := vertexBufferLayout.attributes.map fun attr =>
        { shaderLocation := attr.shaderLocation
          offset := attr.offset
          format := (mapVertexFormat attr.format).1 } }
  let warnings :=
    (vertexBufferLayout.attributes.map fun attr =>
      (mapVertexFormat attr.format).2).flatten
  ({ shaderModule := sm, topology := .TriangleList, layout := some layout },
    warnings)

/-- WebGLBackend.createBufferWithData (src/unnamed/part_002 lines 115-125):
views the data as bytes and hands them with the unmodified usage mask to the
wasm module entry point. -/
def WebGLBackend.createBufferWithData (_ctx : WebGLContext)
    (data : List Nat) (usage : Nat) : WBuffer :=
  wasmCreateBufferWithData data usage

/-- WebGLBackend.writeBuffer (src/unnamed/part_002 lines 127-132): every
parameter is ignored (all four are spelled with a leading underscore); the
body only emits a console.warn. The result carries the buffer as the call
leaves it plus the warning lines, wrapped in Except so a thrown error would
be representable; the body never produces one. -/
def WebGLBackend.writeBuffer (_ctx : WebGLContext) (buffer : WBuffer)
    (_data : List Nat) (_offset : Nat) :
    Except String (WBuffer × List String) :=
  .ok (buffer,
    ["WebGL: writeBuffer not fully implemented yet, use createBufferWithData instead"])

/-- WebGLBackend.draw (src/unnamed/part_002 lines 155-157): an unconditional
forward to the wasm render-pass encoder; no frame state is kept or
checked. -/
def WebGLBackend.draw (frame : FrameContext)
    (vertexCount instanceCount firstVertex firstInstance : Nat) :
    Except String (List GpuCall) :=
  .ok [.passDraw frame.renderPass vertexCount instanceCount firstVertex
    firstInstance]

/-- WebGLBackend.endFrame (src/unnamed/part_002 lines 159-164): forwards
end, finish and submit unconditionally; no check that the frame is still
open. -/
def WebGLBackend.endFrame (_ctx : WebGLContext) (frame : FrameContext) :
    Except String (List GpuCall) :=
  .ok [.passEnd frame.renderPass, .encoderFinish frame.commandEncoder,
    .queueSubmit]

/-- Observable events of the startup driver main in triangle.ts: which
backend inits are attempted, the log lines of the two catch blocks, and the
setup plus first-frame steps that run once a backend is bound. -/
inductive SelEvent where
  | nativeInitCall
  | bridgeInitCall
  | warnLog (msg : String)
  | errorLog (msg : String)
  | shaderModuleCreated
  | pipelineCreated
  | frameRendered
deriving DecidableEq, Repr

/-- The fixed setup and first-frame sequence of triangle.ts lines 88-123,
identical for both backends: createShaderModule, createRenderPipeline, then
one render call (beginFrame, setPipeline, draw, endFrame). -/
def setupEvents : List SelEvent :=
  [.shaderModuleCreated, .pipelineCreated, .frameRendered]

/-- main from triangle.ts lines 44-123: the native branch runs only when
navigator.gpu is truthy; its catch logs a warning and clears the backend;
the bridge branch runs only when no backend is bound; its catch logs the
fatal error and rethrows. The bridge init outcome is a parameter because the
wasm-module load is a host effect. Result: the event trace and the overall
outcome of main. -/
def main (env : HostEnv) (bridgeInit : Except String Unit) :
    List SelEvent × Except String Unit :=
  if env.gpuPresent then
    match WebGPUBackend.init env with
    | .ok _ => ([SelEvent.nativeInitCall] ++ setupEvents, .ok ())
    | .error m =>
      let pre := [SelEvent.nativeInitCall,
        SelEvent.warnLog ("WebGPU init failed: " ++ m)]
      match bridgeInit with
      | .ok _ => (pre ++ [SelEvent.bridgeInitCall] ++ setupEvents, .ok ())
      | .error m2 =>
        (pre ++ [SelEvent.bridgeInitCall,
          SelEvent.errorLog ("Both backends failed: " ++ m2)], .error m2)
  else
    match bridgeInit with
    | .ok _ => ([SelEvent.bridgeInitCall] ++ setupEvents, .ok ())
    | .error m2 =>
      ([SelEvent.bridgeInitCall,
        SelEvent.errorLog ("Both backends failed: " ++ m2)], .error m2)

/-- A concrete host environment with the native capability absent. -/
def envNoGpu : HostEnv :=
  { gpuPresent := false, adapterPresent := true, contextOk := true,
    preferredFormat := "bgra8unorm" }

/-- A concrete host environment advertising the capability but with no
adapter, so WebGPUBackend.init throws its second guard. -/
def envNoAdapter : HostEnv :=
  { gpuPresent := true, adapterPresent := false, contextOk := true,
    preferredFormat := "bgra8unorm" }

/-- A concrete host environment in which WebGPUBackend.init succeeds. -/
def envOk : HostEnv :=
  { gpuPresent := true, adapterPresent := true, contextOk := true,
    preferredFormat := "bgra8unorm" }

/-- A concrete native context. -/
def ctx0 : WebGPUContext := { format := "bgra8unorm" }

/-- A concrete bridge context. -/
def bctx0 : WebGLContext := { deviceHandle := 0 }

/-- A concrete frame handle pair. -/
def frame0 : FrameContext := { commandEncoder := 0, renderPass := 0 }

/-- C1: when the host does not advertise navigator.gpu, main never calls the
native backend init; only the bridge backend init is attempted. -/
theorem probe_short_circuit (env : HostEnv) (bridgeInit : Except String Unit)
    (h : env.gpuPresent = false) :
    SelEvent.nativeInitCall ∉ (main env bridgeInit).1 ∧
    SelEvent.bridgeInitCall ∈ (main env bridgeInit).1 := by
  cases bridgeInit <;> simp [main, h, setupEvents]

/-- Witness for C1 at the concrete environment envNoGpu. -/
theorem probe_short_circuit_witness :
    envNoGpu.gpuPresent = false ∧
    (SelEvent.nativeInitCall ∉ (main envNoGpu (.ok ())).1 ∧
     SelEvent.bridgeInitCall ∈ (main envNoGpu (.ok ())).1) :=
  ⟨rfl, probe_short_circuit envNoGpu (.ok ()) rfl⟩

/-- C2: when the capability is advertised but the native init throws message
m, main logs the warning line and attempts the bridge init; and whenever the
bridge init then throws m2, main rethrows m2 and no rendering setup event
occurs in the trace. -/
theorem native_failure_warns_then_bridge_fatal (env : HostEnv)
    (bridgeInit : Except String Unit) (m : String)
    (hg : env.gpuPresent = true) (hn : WebGPUBackend.init env = .error m) :
    SelEvent.warnLog ("WebGPU init failed: " ++ m) ∈ (main env bridgeInit).1 ∧
    SelEvent.bridgeInitCall ∈ (main env bridgeInit).1 ∧
    ∀ m2 : String, bridgeInit = .error m2 →
      (main env bridgeInit).2 = .error m2 ∧
      SelEvent.shaderModuleCreated ∉ (main env bridgeInit).1 := by
  cases bridgeInit <;> simp [main, hg, hn, setupEvents]

/-- Witness for C2: envNoAdapter makes the native init throw, and a failing
bridge init makes main rethrow that failure with no setup event. -/
theorem native_failure_warns_then_bridge_fatal_witness :
    envNoAdapter.gpuPresent = true ∧
    WebGPUBackend.init envNoAdapter = .error "No WebGPU adapter found" ∧
    (main envNoAdapter (.error "wasm load failed")).2 =
      .error "wasm load failed" ∧
    SelEvent.shaderModuleCreated ∉
      (main envNoAdapter (.error "wasm load failed")).1 := by
  have h := native_failure_warns_then_bridge_fatal envNoAdapter
    (.error "wasm load failed") "No WebGPU adapter found" rfl rfl
  exact ⟨rfl, rfl, (h.2.2 "wasm load failed" rfl).1,
    (h.2.2 "wasm load failed" rfl).2⟩

/-- C3: the bridge writeBuffer, for every context, buffer, data and offset,
returns normally (never throws), leaves the buffer contents unchanged, and
emits exactly the unsupported-operation warning line. -/
theorem bridge_writeBuffer_warns_and_preserves (ctx : WebGLContext)
    (buffer : WBuffer) (data : List Nat) (offset : Nat) :
    WebGLBackend.writeBuffer ctx buffer data offset =
      .ok (buffer,
        ["WebGL: writeBuffer not fully implemented yet, use createBufferWithData instead"]) :=
  rfl

/-- C4: on both backends, createBufferWithData tags the created buffer with
the caller usage OR-ed with the copy-destination bit 0x0008. -/
theorem createBufferWithData_ors_copy_dst (ctxN : WebGPUContext)
    (ctxB : WebGLContext) (data : List Nat) (usage : Nat) :
    (WebGPUBackend.createBufferWithData ctxN data usage).usage =
      (usage ||| 0x0008) ∧
    (WebGLBackend.createBufferWithData ctxB data usage).usage =
      (usage ||| 0x0008) :=
  ⟨rfl, rfl⟩

/-- C5 counterexample: the backend abstraction layer does not reject frame
misuse. Both draw on a frame never produced by beginFrame (frame0 is a bare
handle pair) and a repeated endFrame on one frame return the plain
forwarding result; endFrame is a pure function of its arguments, so a second
call on the same frame is this very value, an .ok forward, not an
invalid-state error raised by the layer. -/
theorem frame_misuse_not_rejected_by_layer :
    WebGPUBackend.endFrame ctx0 frame0 =
      .ok [.passEnd 0, .encoderFinish 0, .queueSubmit] ∧
    WebGPUBackend.draw frame0 3 1 0 0 = .ok [.passDraw 0 3 1 0 0] ∧
    WebGLBackend.endFrame bctx0 frame0 =
      .ok [.passEnd 0, .encoderFinish 0, .queueSubmit] ∧
    WebGLBackend.draw frame0 3 1 0 0 = .ok [.passDraw 0 3 1 0 0] :=
  ⟨rfl, rfl, rfl, rfl⟩

/-- C5 amended: on both backends the abstraction layer performs no
frame-state validation at all: draw and endFrame forward the call to the
underlying encoder unconditionally and never return an invalid-state error;
the calls are never silently dropped, they always reach the underlying API,
which is where any rejection of a misused frame occurs. -/
theorem frame_ops_forward_unconditionally (ctx : WebGPUContext)
    (bctx : WebGLContext) (frame : FrameContext)
    (vertexCount instanceCount firstVertex firstInstance : Nat) :
    WebGPUBackend.draw frame vertexCount instanceCount firstVertex
        firstInstance =
      .ok [.passDraw frame.renderPass vertexCount instanceCount firstVertex
        firstInstance] ∧
    WebGPUBackend.endFrame ctx frame =
      .ok [.passEnd frame.renderPass, .encoderFinish frame.commandEncoder,
        .queueSubmit] ∧
    WebGLBackend.draw frame vertexCount instanceCount firstVertex
        firstInstance =
      .ok [.passDraw frame.renderPass vertexCount instanceCount firstVertex
        firstInstance] ∧
    WebGLBackend.endFrame bctx frame =
      .ok [.passEnd frame.renderPass, .encoderFinish frame.commandEncoder,
        .queueSubmit] :=
  ⟨rfl, rfl, rfl, rfl⟩

/-- C6 counterexample: a shader module declared with vertex entry myVert
yields a native pipeline whose vertex stage binds the fixed name vs_main,
not the caller name. -/
theorem native_entry_points_counterexample :
    (WebGPUBackend.createRenderPipeline ctx0
      (WebGPUBackend.createShaderModule ctx0 "shader source" "myVert"
        "myFrag")
      "triangle-list").vertexEntryPoint = "vs_main" ∧
    "vs_main" ≠ "myVert" :=
  ⟨rfl, by decide⟩

/-- C6 amended: the native backend ignores the entry names passed at shader
module creation; every pipeline it builds, with or without a vertex layout,
binds the fixed entry points vs_main and fs_main. -/
theorem native_pipeline_entry_points_fixed (ctx : WebGPUContext)
    (code vertexEntry fragmentEntry topo : String)
    (vbl : VertexBufferLayout) :
    ((WebGPUBackend.createRenderPipeline ctx
        (WebGPUBackend.createShaderModule ctx code vertexEntry fragmentEntry)
        topo).vertexEntryPoint = "vs_main" ∧
     (WebGPUBackend.createRenderPipeline ctx
        (WebGPUBackend.createShaderModule ctx code vertexEntry fragmentEntry)
        topo).fragmentEntryPoint = "fs_main") ∧
    ((WebGPUBackend.createRenderPipelineWithLayout ctx
        (WebGPUBackend.createShaderModule ctx code vertexEntry fragmentEntry)
        topo vbl).vertexEntryPoint = "vs_main" ∧
     (WebGPUBackend.createRenderPipelineWithLayout ctx
        (WebGPUBackend.createShaderModule ctx code vertexEntry fragmentEntry)
        topo vbl).fragmentEntryPoint = "fs_main") :=
  ⟨⟨rfl, rfl⟩, ⟨rfl, rfl⟩⟩

/-- C7: a context produced by a successful native init stores the preferred
format the host reported, and every pipeline built against that context, via
either creation path, has exactly that format as its single color target. -/
theorem native_pipeline_format_from_init (env : HostEnv)
    (ctx : WebGPUContext) (h : WebGPUBackend.init env = .ok ctx) :
    ctx.format = env.preferredFormat ∧
    (∀ (sm : GPUShaderModule) (topo : String),
      (WebGPUBackend.createRenderPipeline ctx sm topo).colorTargetFormats =
        [ctx.format]) ∧
    (∀ (sm : GPUShaderModule) (topo : String) (vbl : VertexBufferLayout),
      (WebGPUBackend.createRenderPipelineWithLayout ctx sm topo
        vbl).colorTargetFormats = [ctx.format]) := by
  refine ⟨?_, fun sm topo => rfl, fun sm topo vbl => rfl⟩
  unfold WebGPUBackend.init at h
  split at h
  · exact Except.noConfusion h
  · split at h
    · exact Except.noConfusion h
    · split at h
      · exact Except.noConfusion h
      · injection h with h2
        rw [← h2]

/-- Witness for C7 at the concrete environment envOk. -/
theorem native_pipeline_format_from_init_witness :
    WebGPUBackend.init envOk = .ok ctx0 ∧
    ctx0.format = envOk.preferredFormat ∧
    (WebGPUBackend.createRenderPipeline ctx0 { code := "s" }
      "triangle-list").colorTargetFormats = [ctx0.format] := by
  have h := native_pipeline_format_from_init envOk ctx0 rfl
  exact ⟨rfl, h.1, h.2.1 { code := "s" } "triangle-list"⟩

/-- C8: mapVertexFormat maps each of the six recognized canonical format
strings to its bridge enum value with no warning, and maps every other
string to the Float32x4 default together with the diagnostic warning line;
it is a total function, so it never fails. -/
theorem mapVertexFormat_total_with_default :
    mapVertexFormat "float32" = (.Float32, []) ∧
    mapVertexFormat "float32x2" = (.Float32x2, []) ∧
    mapVertexFormat "float32x3" = (.Float32x3, []) ∧
    mapVertexFormat "float32x4" = (.Float32x4, []) ∧
    mapVertexFormat "uint32" = (.Uint32, []) ∧
    mapVertexFormat "sint32" = (.Sint32, []) ∧
    ∀ s : String,
      s ∉ (["float32", "float32x2", "float32x3", "float32x4", "uint32",
        "sint32"] : List String) →
      mapVertexFormat s = (.Float32x4,
        ["Unsupported vertex format: " ++ s ++ ", defaulting to float32x4"]) := by
  refine ⟨rfl, rfl, rfl, rfl, rfl, rfl, ?_⟩
  intro s hs
  simp only [List.mem_cons, List.not_mem_nil, or_false, not_or] at hs
  obtain ⟨h1, h2, h3, h4, h5, h6⟩ := hs
  simp [mapVertexFormat, h1, h2, h3, h4, h5, h6]

/-- Witness for C8 at the unrecognized format string unorm8x4. -/
theorem mapVertexFormat_total_with_default_witness :
    ("unorm8x4" ∉ (["float32", "float32x2", "float32x3", "float32x4",
      "uint32", "sint32"] : List String)) ∧
    mapVertexFormat "unorm8x4" = (.Float32x4,
      ["Unsupported vertex format: " ++ "unorm8x4" ++
        ", defaulting to float32x4"]) :=
  ⟨by decide,
    mapVertexFormat_total_with_default.2.2.2.2.2.2 "unorm8x4" (by decide)⟩

/-- C9: the ten bridge-path buffer-usage constants have exactly the claimed
numeric values, each value is a distinct single bit (a power of two), and
they match the fixed native WebGPU encoding. -/
theorem bufferUsage_matches_native_encoding :
    BufferUsage.MAP_READ = 0x0001 ∧ BufferUsage.MAP_WRITE = 0x0002 ∧
    BufferUsage.COPY_SRC = 0x0004 ∧ BufferUsage.COPY_DST = 0x0008 ∧
    BufferUsage.INDEX = 0x0010 ∧ BufferUsage.VERTEX = 0x0020 ∧
    BufferUsage.UNIFORM = 0x0040 ∧ BufferUsage.STORAGE = 0x0080 ∧
    BufferUsage.INDIRECT = 0x0100 ∧ BufferUsage.QUERY_RESOLVE = 0x0200 ∧
    BufferUsage.MAP_READ = 2 ^ 0 ∧ BufferUsage.MAP_WRITE = 2 ^ 1 ∧
    BufferUsage.COPY_SRC = 2 ^ 2 ∧ BufferUsage.COPY_DST = 2 ^ 3 ∧
    BufferUsage.INDEX = 2 ^ 4 ∧ BufferUsage.VERTEX = 2 ^ 5 ∧
    BufferUsage.UNIFORM = 2 ^ 6 ∧ BufferUsage.STORAGE = 2 ^ 7 ∧
    BufferUsage.INDIRECT = 2 ^ 8 ∧ BufferUsage.QUERY_RESOLVE = 2 ^ 9 ∧
    List.Pairwise (fun a b => a ≠ b)
      [BufferUsage.MAP_READ, BufferUsage.MAP_WRITE, BufferUsage.COPY_SRC,
        BufferUsage.COPY_DST, BufferUsage.INDEX, BufferUsage.VERTEX,
        BufferUsage.UNIFORM, BufferUsage.STORAGE, BufferUsage.INDIRECT,
        BufferUsage.QUERY_RESOLVE] := by
  decide

/-- C10: on both backends and both pipeline-creation paths, the topology
argument is ignored and the resulting pipeline always uses triangle-list
primitive topology. -/
theorem pipeline_topology_always_triangle_list (ctxN : WebGPUContext)
    (ctxB : WebGLContext) (smN : GPUShaderModule) (smB : WShaderModule)
    (topo : String) (vbl : VertexBufferLayout) :
    (WebGPUBackend.createRenderPipeline ctxN smN topo).topology =
      "triangle-list" ∧
    (WebGPUBackend.createRenderPipelineWithLayout ctxN smN topo
      vbl).topology = "triangle-list" ∧
    (WebGLBackend.createRenderPipeline ctxB smB topo).topology =
      WPrimitiveTopology.TriangleList ∧
    (WebGLBackend.createRenderPipelineWithLayout ctxB smB topo
      vbl).1.topology = WPrimitiveTopology.TriangleList :=
  ⟨rfl, rfl, rfl, rfl⟩

end Wgpu
